import Mathlib

/-!
Verification development for the shiatsu-in-bristol booking application.

The embedding models the relational data (products/models.py), the booking
form validation (products/forms.py), the public and account views
(products/views.py, accounts/views.py), the admin actions
(products/admin.py) and the calendar mirror (calendar_integration).

Conventions of the embedding:
* a calendar date is a day ordinal (Nat);
* a time of day is minutes after midnight (Nat, below 1440 for real rows);
* a datetime is absolute minutes, date * 1440 + time, which mirrors the
  datetime.combine arithmetic of the source;
* the current instant (timezone.now) is a parameter in absolute minutes,
  and the current date (timezone.now().date()) is its quotient by 1440;
* database rows carry their primary key explicitly; the SQL uniqueness
  constraint is modelled in DB.insertBooking and DB.updateBooking.
-/

namespace Shiatsu

/-- Booking.status choices from products/models.py. -/
inductive Status where
  | pending
  | approved
  | denied
  | reschedule
  | refund
  | refunded
deriving DecidableEq, Repr

/-- Category model: name and description (description is irrelevant to the
claims and omitted). -/
structure Category where
  id : Nat
  name : String
deriving DecidableEq, Repr

/-- Product model: category foreign key, optional duration in minutes
(PositiveIntegerField with null=True; the source also stores price and
description, which no claim touches). -/
structure Product where
  id : Nat
  categoryId : Nat
  name : String
  durationMinutes : Option Nat
  isActive : Bool
deriving DecidableEq, Repr

/-- Booking model row from products/models.py. -/
structure Booking where
  id : Nat
  productId : Nat
  userId : Nat
  sessionDate : Nat
  sessionTime : Nat
  notes : String
  googleCalendarEventId : Option String
  adminCalendarEventId : Option String
  isAdminSlot : Bool
  status : Status
deriving DecidableEq, Repr

/-- The relational state the validators and views read and write. -/
structure DB where
  categories : List Category
  products : List Product
  bookings : List Booking
deriving DecidableEq, Repr

/-- Python expression duration_minutes or 60: both None and 0 are falsy,
so they fall back to the default of 60 minutes. -/
def durationOr60 : Option Nat → Nat
  | none => 60
  | some 0 => 60
  | some d => d

/-- Resolve the product foreign key of a booking row. -/
def bookingProduct (db : DB) (b : Booking) : Option Product :=
  db.products.find? (fun pr => pr.id == b.productId)

/-- Duration used for an existing booking row:
other.product.duration_minutes or 60.  The none branch is unreachable for
rows satisfying referential integrity. -/
def bookingDuration (db : DB) (b : Booking) : Nat :=
  match bookingProduct db b with
  | some pr => durationOr60 pr.durationMinutes
  | none => 60

/-- datetime.combine(date, time) in absolute minutes. -/
def sessionStartOf (d t : Nat) : Nat := d * 1440 + t

/-- The half-open interval intersection test of the source:
session_start < other_end and session_end > other_start. -/
def overlaps (s e os oe : Nat) : Bool :=
  decide (s < oe) && decide (e > os)

/-- Django iexact lookup: case-insensitive string equality, compared
character by character. -/
def iexact (a b : String) : Bool :=
  a.data.map Char.toLower == b.data.map Char.toLower

/-- Category.objects.filter(name__iexact="Shiatsu Sessions"): the list of
categories the validator could resolve; Category.objects.get succeeds
exactly when this list is a singleton. -/
def shiatsuCategories (db : DB) : List Category :=
  db.categories.filter (fun c => iexact c.name "Shiatsu Sessions")

/-- product__in=shiatsu_products: the booking references one of the
products of the given category. -/
def productInCategory (db : DB) (cat : Category) (pid : Nat) : Bool :=
  (db.products.filter (fun pr => pr.categoryId == cat.id)).any (fun pr => pr.id == pid)

/-- Booking.objects.filter(product__in=shiatsu_products,
session_date=session_date, is_admin_slot=False).exclude(pk=self.instance.pk
if self.instance.pk else None).  With no instance pk, exclude(pk=None)
filters nothing out. -/
def existingSessions (db : DB) (cat : Category) (d : Nat) (excludePk : Option Nat) :
    List Booking :=
  (db.bookings.filter (fun b =>
      productInCategory db cat b.productId && b.sessionDate == d && b.isAdminSlot == false)).filter
    (fun b => match excludePk with | some k => b.id != k | none => true)

/-- Booking.objects.filter(product__in=shiatsu_products,
session_date=session_date, is_admin_slot=True). -/
def adminBookings (db : DB) (cat : Category) (d : Nat) : List Booking :=
  db.bookings.filter (fun b =>
    productInCategory db cat b.productId && b.sessionDate == d && b.isAdminSlot == true)

/-- Booking.objects.filter(product__in=shiatsu_products,
session_date=session_date, is_admin_slot=False) used by the
admin-candidate branch (no exclusion there). -/
def sessionBookings (db : DB) (cat : Category) (d : Nat) : List Booking :=
  db.bookings.filter (fun b =>
    productInCategory db cat b.productId && b.sessionDate == d && b.isAdminSlot == false)

def productRequiredMsg : String := "Product is required for booking."
def noCategoryMsg : String := "Shiatsu Sessions category does not exist."
def advanceNoticeMsg : String := "Bookings must be made at least 24 hours in advance."
def sessionOverlapMsg : String :=
  "Sorry, this time slot overlaps with another Shiatsu Session. Please choose another."
def adminConflictMsg : String :=
  "This session conflicts with an Admin slot. Please choose another time."
def adminSlotConflictMsg : String :=
  "Admin slot conflicts with an existing session. Please choose another time."
def pastDateMsg : String := "Session date cannot be in the past."
def requiredFieldMsg : String := "This field is required."
def alreadyBookedMsg : String :=
  "Sorry, this time slot is already booked. Please choose another."
def adminDuplicateMsg : String :=
  "A booking already exists for this date and time. Please choose another slot."

/-- Outcome of BookingForm.clean: either cleaned data is returned, a
forms.ValidationError is raised, or another exception escapes (the one
uncaught path is Category.objects.get finding several matching rows). -/
inductive CleanOutcome where
  | ok
  | validationError (msg : String)
  | uncaughtException (msg : String)
deriving DecidableEq, Repr

/-- The first overlap scan of BookingForm.clean: some existing non-admin
booking of the category on the date (minus the excluded pk) intersects
the candidate interval of the given duration. -/
def sessionOverlapExists (db : DB) (cat : Category) (excludePk : Option Nat)
    (d t dur : Nat) : Bool :=
  (existingSessions db cat d excludePk).any (fun other =>
    overlaps (sessionStartOf d t) (sessionStartOf d t + dur)
      (sessionStartOf other.sessionDate other.sessionTime)
      (sessionStartOf other.sessionDate other.sessionTime + bookingDuration db other))

/-- The second overlap scan: the candidate interval intersects the fixed
30-minute interval of some admin-slot booking of the category on the date. -/
def adminOverlapExists (db : DB) (cat : Category) (d t dur : Nat) : Bool :=
  (adminBookings db cat d).any (fun ab =>
    overlaps (sessionStartOf d t) (sessionStartOf d t + dur)
      (sessionStartOf ab.sessionDate ab.sessionTime)
      (sessionStartOf ab.sessionDate ab.sessionTime + 30))

/-- The third scan, ran only for admin-slot candidates: the 30-minute
candidate interval intersects some existing non-admin session. -/
def adminCandidateConflict (db : DB) (cat : Category) (d t : Nat) : Bool :=
  (sessionBookings db cat d).any (fun sb =>
    overlaps (sessionStartOf d t) (sessionStartOf d t + 30)
      (sessionStartOf sb.sessionDate sb.sessionTime)
      (sessionStartOf sb.sessionDate sb.sessionTime + bookingDuration db sb))

/-- The body of BookingForm.clean after the product and category lookups
succeeded, in source order: the 24-hour advance check, the
session-overlap scan, the admin-buffer scan, and the admin-candidate
scan.  The admin-candidate branch is guarded by the instance flag alone
because is_admin_slot is not among the form fields, so
cleaned_data.get returns None for it. -/
def cleanChecks (db : DB) (cat : Category) (p : Product) (excludePk : Option Nat)
    (instanceIsAdminSlot : Bool) (now d t : Nat) : CleanOutcome :=
  if d * 1440 + t < now + 24 * 60 then
    .validationError advanceNoticeMsg
  else if sessionOverlapExists db cat excludePk d t (durationOr60 p.durationMinutes) then
    .validationError sessionOverlapMsg
  else if adminOverlapExists db cat d t (durationOr60 p.durationMinutes) then
    .validationError adminConflictMsg
  else if instanceIsAdminSlot && adminCandidateConflict db cat d t then
    .validationError adminSlotConflictMsg
  else
    .ok

/-- BookingForm.clean from products/forms.py.  The two Option arguments
are cleaned_data.get of session_date and session_time: when either is
missing the method returns cleaned_data untouched. -/
def BookingForm.clean (db : DB) (product : Option Product) (excludePk : Option Nat)
    (instanceIsAdminSlot : Bool) (now : Nat) :
    Option Nat → Option Nat → CleanOutcome
  | some d, some t =>
    match product with
    | none => .validationError productRequiredMsg
    | some p =>
      match shiatsuCategories db with
      | [] => .validationError noCategoryMsg
      | [cat] => cleanChecks db cat p excludePk instanceIsAdminSlot now d t
      | _ :: _ :: _ => .uncaughtException "Category.MultipleObjectsReturned"
  | _, _ => .ok

/-- clean_session_date from products/forms.py: reject dates strictly
before today. -/
def clean_session_date (now d : Nat) : Option String :=
  if d < now / 1440 then some pastDateMsg else none

/-- Field-stage cleaning of session_date: a missing required field or a
failing clean_session_date removes the value from cleaned_data and
records the error. -/
def dateFieldResult (now : Nat) : Option Nat → Option Nat × List String
  | none => (none, [requiredFieldMsg])
  | some d =>
    match clean_session_date now d with
    | some m => (none, [m])
    | none => (some d, [])

/-- Field-stage cleaning of session_time (required, no custom clean). -/
def timeFieldResult : Option Nat → Option Nat × List String
  | none => (none, [requiredFieldMsg])
  | some t => (some t, [])

/-- Overall outcome of form validation. -/
inductive FormOutcome where
  | valid (d t : Nat)
  | invalid (errors : List String)
  | uncaught (msg : String)
deriving DecidableEq, Repr

/-- Combine field-stage results with the outcome of clean: the form is
valid exactly when no error was recorded at either stage. -/
def formCombine : Option Nat × List String → Option Nat × List String →
    CleanOutcome → FormOutcome
  | _, _, .uncaughtException m => .uncaught m
  | dr, tr, .validationError m => .invalid (dr.2 ++ tr.2 ++ [m])
  | (some d, []), (some t, []), .ok => .valid d t
  | dr, tr, .ok => .invalid (dr.2 ++ tr.2)

/-- Full validation of BookingForm: field cleans feed cleaned_data, then
clean runs on whatever survived. -/
def BookingForm.full_clean (db : DB) (product : Option Product) (excludePk : Option Nat)
    (instanceIsAdminSlot : Bool) (now : Nat) (rawDate rawTime : Option Nat) : FormOutcome :=
  formCombine (dateFieldResult now rawDate) (timeFieldResult rawTime)
    (BookingForm.clean db product excludePk instanceIsAdminSlot now
      (dateFieldResult now rawDate).1 (timeFieldResult rawTime).1)

/-- Two booking rows agree on the quadruple of the uniqueness constraint
unique_booking_per_type_per_slot: product, session_date, session_time,
is_admin_slot. -/
def sameSlotB (x y : Booking) : Bool :=
  x.productId == y.productId && x.sessionDate == y.sessionDate &&
    x.sessionTime == y.sessionTime && x.isAdminSlot == y.isAdminSlot

/-- The next autoincrement primary key. -/
def DB.freshPk (db : DB) : Nat :=
  db.bookings.foldr (fun b acc => max b.id acc) 0 + 1

/-- INSERT of a booking row: the primary key and the uniqueness
constraint over (product, session_date, session_time, is_admin_slot) are
checked by the database; a violation raises IntegrityError. -/
def DB.insertBooking (db : DB) (b : Booking) : Except String DB :=
  if db.bookings.any (fun x => x.id == b.id) then
    .error "IntegrityError: duplicate primary key"
  else if db.bookings.any (fun x => sameSlotB x b) then
    .error "IntegrityError: unique_booking_per_type_per_slot"
  else
    .ok { db with bookings := db.bookings ++ [b] }

/-- UPDATE of the booking row with the primary key of b: rejected when a
distinct row already occupies the constrained quadruple; otherwise the
row is replaced in place (an absent key updates no row). -/
def DB.updateBooking (db : DB) (b : Booking) : Except String DB :=
  if db.bookings.any (fun x => x.id != b.id && sameSlotB x b) then
    .error "IntegrityError: unique_booking_per_type_per_slot"
  else
    .ok { db with bookings := db.bookings.map (fun x => if x.id == b.id then b else x) }

/-- DELETE of a booking row by primary key. -/
def DB.deleteBooking (db : DB) (pk : Nat) : DB :=
  { db with bookings := db.bookings.filter (fun x => x.id != pk) }

/-- queryset.update(status=s) over the selected primary keys. -/
def DB.bulkSetStatus (db : DB) (sel : List Nat) (s : Status) : DB :=
  { db with bookings := db.bookings.map (fun b =>
      if sel.contains b.id then { b with status := s } else b) }

/-- The booking states reachable through the write operations the
application performs: creation through a form or the admin, edits,
deletions, and the bulk status updates of the admin actions. -/
inductive Reachable : DB → Prop
  | init (cats : List Category) (prods : List Product) : Reachable ⟨cats, prods, []⟩
  | insert {db db' : DB} {b : Booking} :
      Reachable db → db.insertBooking b = .ok db' → Reachable db'
  | update {db db' : DB} {b : Booking} :
      Reachable db → db.updateBooking b = .ok db' → Reachable db'
  | delete {db : DB} (pk : Nat) : Reachable db → Reachable (db.deleteBooking pk)
  | bulkStatus {db : DB} (sel : List Nat) (s : Status) :
      Reachable db → Reachable (db.bulkSetStatus sel s)

/-- Number of booking rows occupying a given constrained quadruple. -/
def slotCount (db : DB) (p d t : Nat) (fl : Bool) : Nat :=
  db.bookings.countP (fun b =>
    b.productId == p && b.sessionDate == d && b.sessionTime == t && b.isAdminSlot == fl)

/-! ## Calendar mirror (calendar_integration/services.py, signals.py) -/

/-- Behaviour of the external Google Calendar service: each raw call
either succeeds or raises.  An insert yields the id of the created event
(event.get, hence optional). -/
structure CalendarSvc where
  auth : Except String Unit
  insertSession : Except String (Option String)
  insertAdmin : Except String (Option String)
  updateCall : Except String Unit
deriving Repr

/-- Payload of a calendar event as far as the claims observe it. -/
structure CalendarEvent where
  summary : String
  startMinutes : Nat
  endMinutes : Nat
deriving DecidableEq, Repr

/-- The session event built by create_event and update_event: start at
datetime.combine(session_date, session_time), end after
booking.product.duration_minutes or 60 minutes. -/
def sessionEvent (db : DB) (b : Booking) : CalendarEvent :=
  { summary := "Shiatsu Session"
    startMinutes := sessionStartOf b.sessionDate b.sessionTime
    endMinutes := sessionStartOf b.sessionDate b.sessionTime + bookingDuration db b }

/-- booking.save(update_fields=[google_calendar_event_id,
admin_calendar_event_id]) performed inside create_event. -/
def DB.setEventIds (db : DB) (pk : Nat) (g a : Option String) : DB :=
  { db with bookings := db.bookings.map (fun x =>
      if x.id == pk then { x with googleCalendarEventId := g, adminCalendarEventId := a } else x) }

/-- Booking.objects.filter(pk=...).update(google_calendar_event_id=...)
performed by the signal handler. -/
def DB.setGoogleEventId (db : DB) (pk : Nat) (g : String) : DB :=
  { db with bookings := db.bookings.map (fun x =>
      if x.id == pk then { x with googleCalendarEventId := some g } else x) }

/-- The synthetic admin-slot row created at the end of create_event:
same product and user, scheduled at session end for 30 minutes, flagged
is_admin_slot=True. -/
def adminSlotBooking (db : DB) (b : Booking) : Booking :=
  { id := db.freshPk
    productId := b.productId
    userId := b.userId
    sessionDate := (sessionStartOf b.sessionDate b.sessionTime + bookingDuration db b) / 1440
    sessionTime := (sessionStartOf b.sessionDate b.sessionTime + bookingDuration db b) % 1440
    notes := "Admin slot after session"
    googleCalendarEventId := none
    adminCalendarEventId := none
    isAdminSlot := true
    status := .pending }

/-- GoogleCalendarService.create_event.  Every failing branch of the
external service is absorbed by the try/except of the source and turned
into a None result; the database reached at the failure point is kept
(earlier writes were committed). -/
def GoogleCalendarService.create_event (svc : CalendarSvc) (db : DB) (b : Booking) :
    Option String × DB :=
  match svc.auth with
  | .error _ => (none, db)
  | .ok _ =>
    if b.isAdminSlot then (none, db)
    else
      match svc.insertSession with
      | .error _ => (none, db)
      | .ok eventId =>
        match svc.insertAdmin with
        | .error _ => (none, db)
        | .ok adminEventId =>
          match (db.setEventIds b.id eventId adminEventId).insertBooking
              (adminSlotBooking (db.setEventIds b.id eventId adminEventId) b) with
          | .error _ => (none, db.setEventIds b.id eventId adminEventId)
          | .ok db3 =>
            match eventId with
            | some eid => (some eid, db3)
            | none => (none, db3)

/-- GoogleCalendarService.update_event: returns the updated payload, or
None when the service raised (caught inside the method). -/
def GoogleCalendarService.update_event (svc : CalendarSvc) (db : DB) (b : Booking) :
    Option CalendarEvent :=
  match svc.auth with
  | .error _ => none
  | .ok _ =>
    match svc.updateCall with
    | .error _ => none
    | .ok _ => some (sessionEvent db b)

/-- The post_save receiver create_or_update_calendar_event from
calendar_integration/signals.py.  All service failures are already
matched away inside the called methods, mirroring their try/except
blocks, and the outer try/except of the handler leaves no branch that
could raise, so the function is total over every service behaviour. -/
def create_or_update_calendar_event (svc : CalendarSvc) (db : DB) (b : Booking)
    (created : Bool) : DB :=
  if b.isAdminSlot then db
  else if created then
    match GoogleCalendarService.create_event svc db b with
    | (some eid, db2) => db2.setGoogleEventId b.id eid
    | (none, db2) => db2
  else
    match b.googleCalendarEventId with
    | some _ =>
      match GoogleCalendarService.update_event svc db b with
      | _ => db
    | none =>
      match GoogleCalendarService.create_event svc db b with
      | (some eid, db2) => db2.setGoogleEventId b.id eid
      | (none, db2) => db2

/-! ## Views (products/views.py, accounts/views.py) -/

/-- Result of a POST to the booking views. -/
inductive ViewResult where
  | redirectConfirmation (pk : Nat)
  | renderFormError (errors : List String)
  | unhandledException (msg : String)
deriving DecidableEq, Repr

/-- The booking instance assembled by product_detail before save:
form.save(commit=False) with product and user filled in. -/
def viewBooking (p : Product) (userId pk d t : Nat) (notes : String) : Booking :=
  { id := pk
    productId := p.id
    userId := userId
    sessionDate := d
    sessionTime := t
    notes := notes
    googleCalendarEventId := none
    adminCalendarEventId := none
    isAdminSlot := false
    status := .pending }

/-- The POST branch of product_detail: validate, save inside a
try/except IntegrityError, fire the post_save signal on success.  An
IntegrityError from save is converted into a form error and the page is
re-rendered. -/
def product_detail_post (svc : CalendarSvc) (db : DB) (now : Nat) (p : Product)
    (userId : Nat) (rawDate rawTime : Option Nat) (notes : String) : DB × ViewResult :=
  match BookingForm.full_clean db (some p) none false now rawDate rawTime with
  | .valid d t =>
    match db.insertBooking (viewBooking p userId db.freshPk d t notes) with
    | .ok db2 =>
      (create_or_update_calendar_event svc db2 (viewBooking p userId db.freshPk d t notes) true,
        .redirectConfirmation db.freshPk)
    | .error _ => (db, .renderFormError [alreadyBookedMsg])
  | .invalid errs => (db, .renderFormError errs)
  | .uncaught m => (db, .unhandledException m)

/-- The POST branch of edit_booking from accounts/views.py: the form is
built with instance=booking and no product argument.  The result flag
records whether form.save ran. -/
def edit_booking_post (svc : CalendarSvc) (db : DB) (now : Nat) (booking : Booking)
    (rawDate rawTime : Option Nat) : DB × Bool :=
  match BookingForm.full_clean db none (some booking.id) booking.isAdminSlot now rawDate rawTime with
  | .valid d t =>
    match db.updateBooking { booking with sessionDate := d, sessionTime := t } with
    | .ok db2 =>
      (create_or_update_calendar_event svc db2
        { booking with sessionDate := d, sessionTime := t } false, true)
    | .error _ => (db, false)
  | .invalid _ => (db, false)
  | .uncaught _ => (db, false)

/-! ## Admin (products/admin.py) -/

/-- The acting request.user as the admin actions see it. -/
structure Principal where
  isStaff : Bool
  isSuperuser : Bool
deriving DecidableEq, Repr

/-- BookingAdmin.approve_bookings: guard on staff or superuser, then a
bulk status update; an unauthorized call only produces a message. -/
def approve_bookings (u : Principal) (db : DB) (sel : List Nat) : DB × String :=
  if !(u.isStaff || u.isSuperuser) then
    (db, "You do not have permission to approve bookings.")
  else
    (db.bulkSetStatus sel .approved,
      toString (db.bookings.filter (fun b => sel.contains b.id)).length ++
        " booking(s) marked as approved.")

/-- BookingAdmin.deny_bookings: no permission guard in the source. -/
def deny_bookings (_u : Principal) (db : DB) (sel : List Nat) : DB × String :=
  (db.bulkSetStatus sel .denied,
    toString (db.bookings.filter (fun b => sel.contains b.id)).length ++
      " booking(s) marked as denied.")

/-- BookingAdmin.mark_reschedule, with the same guard as approve. -/
def mark_reschedule (u : Principal) (db : DB) (sel : List Nat) : DB × String :=
  if !(u.isStaff || u.isSuperuser) then
    (db, "You do not have permission to reschedule bookings.")
  else
    (db.bulkSetStatus sel .reschedule,
      toString (db.bookings.filter (fun b => sel.contains b.id)).length ++
        " booking(s) marked as reschedule.")

/-- BookingAdmin.mark_refund, with the same guard as approve. -/
def mark_refund (u : Principal) (db : DB) (sel : List Nat) : DB × String :=
  if !(u.isStaff || u.isSuperuser) then
    (db, "You do not have permission to refund bookings.")
  else
    (db.bulkSetStatus sel .refund,
      toString (db.bookings.filter (fun b => sel.contains b.id)).length ++
        " booking(s) marked as refund.")

/-- BookingAdmin.save_model: super().save_model is wrapped in a
try/except IntegrityError that turns the failure into a user-facing
message and leaves the database untouched. -/
def BookingAdmin.save_model (db : DB) (obj : Booking) : DB × Option String :=
  match db.insertBooking obj with
  | .ok db2 => (db2, none)
  | .error _ => (db, some adminDuplicateMsg)

/-! ## Concrete states used by witnesses and counterexamples -/

/-- The category the validator is hardwired to. -/
def catShiatsu : Category := { id := 1, name := "Shiatsu Sessions" }

/-- A second, unrelated category. -/
def catVouchers : Category := { id := 2, name := "Gift Vouchers" }

/-- A 60-minute product of the Shiatsu Sessions category. -/
def prodShiatsu60 : Product :=
  { id := 1, categoryId := 1, name := "60-Minute Session", durationMinutes := some 60,
    isActive := true }

/-- A product of the Gift Vouchers category. -/
def prodVoucher : Product :=
  { id := 2, categoryId := 2, name := "Gift Voucher", durationMinutes := some 60,
    isActive := true }

/-- A service behaviour where every external call raises. -/
def svcFail : CalendarSvc :=
  { auth := .error "authentication failed", insertSession := .error "insert failed",
    insertAdmin := .error "insert failed", updateCall := .error "update failed" }

/-- An existing non-admin voucher booking at day 100, 10:00. -/
def voucherBooking : Booking :=
  { id := 1, productId := 2, userId := 9, sessionDate := 100, sessionTime := 600,
    notes := "", googleCalendarEventId := none, adminCalendarEventId := none,
    isAdminSlot := false, status := .pending }

/-- State with both categories, the voucher product only, and one
existing voucher booking. -/
def dbVoucherWorld : DB :=
  { categories := [catShiatsu, catVouchers], products := [prodVoucher],
    bookings := [voucherBooking] }

/-- An existing non-admin Shiatsu booking at day 100, 10:00. -/
def shiatsuBooking : Booking :=
  { id := 1, productId := 1, userId := 9, sessionDate := 100, sessionTime := 600,
    notes := "", googleCalendarEventId := none, adminCalendarEventId := none,
    isAdminSlot := false, status := .pending }

/-- State with both categories, the Shiatsu product, and one existing
Shiatsu booking. -/
def dbShiatsuWorld : DB :=
  { categories := [catShiatsu, catVouchers], products := [prodShiatsu60],
    bookings := [shiatsuBooking] }

/-! ## Helper lemmas -/

theorem clean_cat (db : DB) (p : Product) (excludePk : Option Nat) (flag : Bool)
    (now d t : Nat) (cat : Category) (hcat : shiatsuCategories db = [cat]) :
    BookingForm.clean db (some p) excludePk flag now (some d) (some t) =
      cleanChecks db cat p excludePk flag now d t := by
  simp [BookingForm.clean, hcat]

theorem date_field_ok (now d : Nat) (hpast : ¬ d < now / 1440) :
    dateFieldResult now (some d) = (some d, []) := by
  simp [dateFieldResult, clean_session_date, hpast]

theorem full_clean_of_clean_err (db : DB) (product : Option Product)
    (excludePk : Option Nat) (flag : Bool) (now d t : Nat) (m : String)
    (hpast : ¬ d < now / 1440)
    (hc : BookingForm.clean db product excludePk flag now (some d) (some t) =
      .validationError m) :
    BookingForm.full_clean db product excludePk flag now (some d) (some t) =
      .invalid [m] := by
  unfold BookingForm.full_clean
  rw [date_field_ok now d hpast]
  show formCombine (some d, []) (some t, [])
    (BookingForm.clean db product excludePk flag now (some d) (some t)) = .invalid [m]
  rw [hc]
  rfl

theorem full_clean_of_clean_ok (db : DB) (product : Option Product)
    (excludePk : Option Nat) (flag : Bool) (now d t : Nat)
    (hpast : ¬ d < now / 1440)
    (hc : BookingForm.clean db product excludePk flag now (some d) (some t) = .ok) :
    BookingForm.full_clean db product excludePk flag now (some d) (some t) =
      .valid d t := by
  unfold BookingForm.full_clean
  rw [date_field_ok now d hpast]
  show formCombine (some d, []) (some t, [])
    (BookingForm.clean db product excludePk flag now (some d) (some t)) = .valid d t
  rw [hc]
  rfl

theorem not_past_of_advance (now d t : Nat) (ht : t < 1440)
    (h24 : ¬ d * 1440 + t < now + 24 * 60) : ¬ d < now / 1440 := by
  intro hlt
  have h1 : (d + 1) * 1440 ≤ (now / 1440) * 1440 := Nat.mul_le_mul_right _ hlt
  have h2 : (now / 1440) * 1440 ≤ now := Nat.div_mul_le_self now 1440
  omega

theorem sessionOverlapExists_of_mem (db : DB) (cat : Category) (excludePk : Option Nat)
    (d t dur : Nat) (b : Booking)
    (hb : b ∈ db.bookings) (hbc : productInCategory db cat b.productId = true)
    (hbd : b.sessionDate = d) (hba : b.isAdminSlot = false)
    (hx : match excludePk with | some k => (b.id != k) = true | none => True)
    (hov : overlaps (sessionStartOf d t) (sessionStartOf d t + dur)
        (sessionStartOf b.sessionDate b.sessionTime)
        (sessionStartOf b.sessionDate b.sessionTime + bookingDuration db b) = true) :
    sessionOverlapExists db cat excludePk d t dur = true := by
  unfold sessionOverlapExists existingSessions
  rw [List.any_eq_true]
  refine ⟨b, ?_, hov⟩
  rw [List.mem_filter]
  refine ⟨List.mem_filter.mpr ⟨hb, by simp [hbc, hbd, hba]⟩, ?_⟩
  cases excludePk with
  | none => simp
  | some k => simpa using hx

/-! ## Claim C1 -/

/-- C1: the claim quantifies over bookings in the same category as the
candidate, but the validator only consults the category named Shiatsu
Sessions.  Concretely: in dbVoucherWorld the candidate books prodVoucher
at day 100, 10:30, overlapping the existing non-admin booking of the
very same product (hence the same Gift Vouchers category, interval
10:00 to 11:00 against 10:30 to 11:30) on the same date, yet the form
validates and the view inserts a new row, so the claim fails at this
input. -/
theorem c1_counterexample :
    voucherBooking ∈ dbVoucherWorld.bookings ∧
      voucherBooking.isAdminSlot = false ∧
      voucherBooking.sessionDate = 100 ∧
      bookingProduct dbVoucherWorld voucherBooking = some prodVoucher ∧
      overlaps (sessionStartOf 100 630)
        (sessionStartOf 100 630 + durationOr60 prodVoucher.durationMinutes)
        (sessionStartOf voucherBooking.sessionDate voucherBooking.sessionTime)
        (sessionStartOf voucherBooking.sessionDate voucherBooking.sessionTime +
          bookingDuration dbVoucherWorld voucherBooking) = true ∧
      BookingForm.full_clean dbVoucherWorld (some prodVoucher) none false 0
        (some 100) (some 630) = .valid 100 630 ∧
      (product_detail_post svcFail dbVoucherWorld 0 prodVoucher 9
        (some 100) (some 630) "").1.bookings.length =
        dbVoucherWorld.bookings.length + 1 := by
  decide

/-- C1 (amended): whenever the candidate interval intersects an existing
non-admin booking whose product lies in the Shiatsu Sessions category on
the same date, and the candidate passes the checks that run first (a
product is supplied, exactly one Shiatsu Sessions category exists, and
the session datetime is at least 24 hours after now), validation rejects
with the overlap message and the public view leaves the database
unchanged, creating no booking row. -/
theorem c1_shiatsu_overlap_rejected
    (svc : CalendarSvc) (db : DB) (now : Nat) (p : Product) (userId : Nat)
    (notes : String) (d t : Nat) (cat : Category) (b : Booking)
    (hcat : shiatsuCategories db = [cat]) (ht : t < 1440)
    (h24 : ¬ d * 1440 + t < now + 24 * 60)
    (hb : b ∈ db.bookings) (hbc : productInCategory db cat b.productId = true)
    (hbd : b.sessionDate = d) (hba : b.isAdminSlot = false)
    (hov : overlaps (sessionStartOf d t)
        (sessionStartOf d t + durationOr60 p.durationMinutes)
        (sessionStartOf b.sessionDate b.sessionTime)
        (sessionStartOf b.sessionDate b.sessionTime + bookingDuration db b) = true) :
    BookingForm.full_clean db (some p) none false now (some d) (some t) =
        .invalid [sessionOverlapMsg] ∧
      product_detail_post svc db now p userId (some d) (some t) notes =
        (db, .renderFormError [sessionOverlapMsg]) := by
  have hex : sessionOverlapExists db cat none d t (durationOr60 p.durationMinutes) = true :=
    sessionOverlapExists_of_mem db cat none d t _ b hb hbc hbd hba trivial hov
  have hclean : BookingForm.clean db (some p) none false now (some d) (some t) =
      .validationError sessionOverlapMsg := by
    rw [clean_cat db p none false now d t cat hcat]
    unfold cleanChecks
    rw [if_neg h24, if_pos hex]
  have hfull := full_clean_of_clean_err db (some p) none false now d t _
    (not_past_of_advance now d t ht h24) hclean
  refine ⟨hfull, ?_⟩
  unfold product_detail_post
  rw [hfull]

/-- Witness for C1: the overlapping Shiatsu candidate at day 100, 10:30
against the existing 10:00 booking is rejected with the overlap message. -/
theorem c1_shiatsu_overlap_rejected_witness :
    BookingForm.full_clean dbShiatsuWorld (some prodShiatsu60) none false 0
        (some 100) (some 630) = .invalid [sessionOverlapMsg] ∧
      product_detail_post svcFail dbShiatsuWorld 0 prodShiatsu60 9
        (some 100) (some 630) "" = (dbShiatsuWorld, .renderFormError [sessionOverlapMsg]) :=
  c1_shiatsu_overlap_rejected svcFail dbShiatsuWorld 0 prodShiatsu60 9 "" 100 630
    catShiatsu shiatsuBooking (by decide) (by decide) (by decide) (by decide)
    (by decide) (by decide) (by decide) (by decide)

/-! ## Claim C2 -/

/-- State with both categories, both products, and one existing Shiatsu
booking. -/
def dbTwoCatWorld : DB :=
  { categories := [catShiatsu, catVouchers], products := [prodShiatsu60, prodVoucher],
    bookings := [shiatsuBooking] }

theorem filter_append_singleton_false {α : Type} (p : α → Bool) (l : List α) (a : α)
    (h : p a = false) : (l ++ [a]).filter p = l.filter p := by
  rw [List.filter_append]
  simp [h]

theorem existingSessions_append_outside (cats : List Category) (prods : List Product)
    (bks : List Booking) (b : Booking) (cat : Category) (d : Nat) (ex : Option Nat)
    (hb : productInCategory ⟨cats, prods, bks⟩ cat b.productId = false) :
    existingSessions ⟨cats, prods, bks ++ [b]⟩ cat d ex =
      existingSessions ⟨cats, prods, bks⟩ cat d ex := by
  unfold existingSessions
  have hpb : (productInCategory ⟨cats, prods, bks ++ [b]⟩ cat b.productId &&
      b.sessionDate == d && b.isAdminSlot == false) = false := by
    have h0 : productInCategory ⟨cats, prods, bks ++ [b]⟩ cat b.productId =
        productInCategory ⟨cats, prods, bks⟩ cat b.productId := rfl
    rw [h0, hb]
    simp
  show ((bks ++ [b]).filter _).filter _ = _
  rw [filter_append_singleton_false
    (fun x => productInCategory ⟨cats, prods, bks ++ [b]⟩ cat x.productId &&
      x.sessionDate == d && x.isAdminSlot == false) bks b hpb]
  rfl

theorem adminBookings_append_outside (cats : List Category) (prods : List Product)
    (bks : List Booking) (b : Booking) (cat : Category) (d : Nat)
    (hb : productInCategory ⟨cats, prods, bks⟩ cat b.productId = false) :
    adminBookings ⟨cats, prods, bks ++ [b]⟩ cat d = adminBookings ⟨cats, prods, bks⟩ cat d := by
  unfold adminBookings
  have hpb : (productInCategory ⟨cats, prods, bks ++ [b]⟩ cat b.productId &&
      b.sessionDate == d && b.isAdminSlot == true) = false := by
    have h0 : productInCategory ⟨cats, prods, bks ++ [b]⟩ cat b.productId =
        productInCategory ⟨cats, prods, bks⟩ cat b.productId := rfl
    rw [h0, hb]
    simp
  show (bks ++ [b]).filter _ = _
  rw [filter_append_singleton_false
    (fun x => productInCategory ⟨cats, prods, bks ++ [b]⟩ cat x.productId &&
      x.sessionDate == d && x.isAdminSlot == true) bks b hpb]
  rfl

theorem sessionBookings_append_outside (cats : List Category) (prods : List Product)
    (bks : List Booking) (b : Booking) (cat : Category) (d : Nat)
    (hb : productInCategory ⟨cats, prods, bks⟩ cat b.productId = false) :
    sessionBookings ⟨cats, prods, bks ++ [b]⟩ cat d =
      sessionBookings ⟨cats, prods, bks⟩ cat d := by
  unfold sessionBookings
  have hpb : (productInCategory ⟨cats, prods, bks ++ [b]⟩ cat b.productId &&
      b.sessionDate == d && b.isAdminSlot == false) = false := by
    have h0 : productInCategory ⟨cats, prods, bks ++ [b]⟩ cat b.productId =
        productInCategory ⟨cats, prods, bks⟩ cat b.productId := rfl
    rw [h0, hb]
    simp
  show (bks ++ [b]).filter _ = _
  rw [filter_append_singleton_false
    (fun x => productInCategory ⟨cats, prods, bks ++ [b]⟩ cat x.productId &&
      x.sessionDate == d && x.isAdminSlot == false) bks b hpb]
  rfl

theorem cleanChecks_append_outside (cats : List Category) (prods : List Product)
    (bks : List Booking) (b : Booking) (cat : Category) (p : Product)
    (ex : Option Nat) (flag : Bool) (now d t : Nat)
    (hb : productInCategory ⟨cats, prods, bks⟩ cat b.productId = false) :
    cleanChecks ⟨cats, prods, bks ++ [b]⟩ cat p ex flag now d t =
      cleanChecks ⟨cats, prods, bks⟩ cat p ex flag now d t := by
  unfold cleanChecks sessionOverlapExists adminOverlapExists adminCandidateConflict
  rw [existingSessions_append_outside cats prods bks b cat d ex hb,
    adminBookings_append_outside cats prods bks b cat d hb,
    sessionBookings_append_outside cats prods bks b cat d hb]
  have hbd : bookingDuration (⟨cats, prods, bks ++ [b]⟩ : DB) =
      bookingDuration ⟨cats, prods, bks⟩ := rfl
  simp only [hbd]

theorem full_clean_append_outside (cats : List Category) (prods : List Product)
    (bks : List Booking) (b : Booking) (cat : Category)
    (hcat : shiatsuCategories ⟨cats, prods, bks⟩ = [cat])
    (hb : productInCategory ⟨cats, prods, bks⟩ cat b.productId = false)
    (product : Option Product) (excludePk : Option Nat) (flag : Bool)
    (now : Nat) (rawDate rawTime : Option Nat) :
    BookingForm.full_clean ⟨cats, prods, bks ++ [b]⟩ product excludePk flag now
        rawDate rawTime =
      BookingForm.full_clean ⟨cats, prods, bks⟩ product excludePk flag now
        rawDate rawTime := by
  have hsc : shiatsuCategories ⟨cats, prods, bks ++ [b]⟩ = [cat] := hcat
  unfold BookingForm.full_clean
  rcases hdv : (dateFieldResult now rawDate).1 with _ | d
  · rfl
  rcases htv : (timeFieldResult rawTime).1 with _ | t
  · rfl
  rcases product with _ | p
  · rfl
  have hc : BookingForm.clean ⟨cats, prods, bks ++ [b]⟩ (some p) excludePk flag now
      (some d) (some t) = BookingForm.clean ⟨cats, prods, bks⟩ (some p) excludePk flag now
      (some d) (some t) := by
    rw [clean_cat _ p excludePk flag now d t cat hsc,
      clean_cat _ p excludePk flag now d t cat hcat]
    exact cleanChecks_append_outside cats prods bks b cat p excludePk flag now d t hb
  rw [hc]

/-- C2: the claim says the consulted set is scoped to the category of
the candidate product, so a booking in a different category never causes
rejection.  Concretely: in dbTwoCatWorld the candidate books the Gift
Vouchers product at day 100, 10:30; the only existing booking belongs to
the Shiatsu Sessions category, a different category than the candidate,
yet validation rejects with the overlap message. -/
theorem c2_counterexample :
    bookingProduct dbTwoCatWorld shiatsuBooking = some prodShiatsu60 ∧
      prodShiatsu60.categoryId ≠ prodVoucher.categoryId ∧
      shiatsuBooking ∈ dbTwoCatWorld.bookings ∧
      BookingForm.full_clean dbTwoCatWorld (some prodVoucher) none false 0
        (some 100) (some 630) = .invalid [sessionOverlapMsg] := by
  decide

/-- C2 (amended): the set of bookings consulted by the validator is
scoped to the category named Shiatsu Sessions, independent of the
candidate product.  First conjunct: appending any booking whose product
lies outside that category never changes any validation outcome, so such
a booking never causes a rejection.  Second conjunct: every overlapping
non-admin booking whose product lies in that category does cause the
overlap rejection once the earlier checks pass. -/
theorem c2_scope_is_shiatsu_category
    (cats : List Category) (prods : List Product) (bks : List Booking)
    (cat : Category) (hcat : shiatsuCategories ⟨cats, prods, bks⟩ = [cat]) :
    (∀ b : Booking, productInCategory ⟨cats, prods, bks⟩ cat b.productId = false →
      ∀ (product : Option Product) (excludePk : Option Nat) (flag : Bool)
        (now : Nat) (rawDate rawTime : Option Nat),
        BookingForm.full_clean ⟨cats, prods, bks ++ [b]⟩ product excludePk flag now
            rawDate rawTime =
          BookingForm.full_clean ⟨cats, prods, bks⟩ product excludePk flag now
            rawDate rawTime) ∧
    (∀ (p : Product) (now d t : Nat) (b : Booking), b ∈ bks →
      productInCategory ⟨cats, prods, bks⟩ cat b.productId = true →
      b.sessionDate = d → b.isAdminSlot = false → t < 1440 →
      ¬ d * 1440 + t < now + 24 * 60 →
      overlaps (sessionStartOf d t)
        (sessionStartOf d t + durationOr60 p.durationMinutes)
        (sessionStartOf b.sessionDate b.sessionTime)
        (sessionStartOf b.sessionDate b.sessionTime +
          bookingDuration ⟨cats, prods, bks⟩ b) = true →
      BookingForm.full_clean ⟨cats, prods, bks⟩ (some p) none false now
        (some d) (some t) = .invalid [sessionOverlapMsg]) := by
  constructor
  · intro b hb product excludePk flag now rawDate rawTime
    exact full_clean_append_outside cats prods bks b cat hcat hb product excludePk
      flag now rawDate rawTime
  · intro p now d t b hb hbc hbd hba ht h24 hov
    have hex : sessionOverlapExists ⟨cats, prods, bks⟩ cat none d t
        (durationOr60 p.durationMinutes) = true :=
      sessionOverlapExists_of_mem _ cat none d t _ b hb hbc hbd hba trivial hov
    have hclean : BookingForm.clean ⟨cats, prods, bks⟩ (some p) none false now
        (some d) (some t) = .validationError sessionOverlapMsg := by
      rw [clean_cat _ p none false now d t cat hcat]
      unfold cleanChecks
      rw [if_neg h24, if_pos hex]
    exact full_clean_of_clean_err _ (some p) none false now d t _
      (not_past_of_advance now d t ht h24) hclean

/-- Witness for C2, at dbTwoCatWorld: appending a Gift Vouchers booking
changes no outcome, and the existing Shiatsu booking still triggers the
overlap rejection. -/
theorem c2_scope_is_shiatsu_category_witness :
    BookingForm.full_clean
        ⟨[catShiatsu, catVouchers], [prodShiatsu60, prodVoucher],
          [shiatsuBooking] ++ [voucherBooking]⟩
        (some prodShiatsu60) none false 0 (some 100) (some 1000) =
      BookingForm.full_clean
        ⟨[catShiatsu, catVouchers], [prodShiatsu60, prodVoucher], [shiatsuBooking]⟩
        (some prodShiatsu60) none false 0 (some 100) (some 1000) ∧
    BookingForm.full_clean
        ⟨[catShiatsu, catVouchers], [prodShiatsu60, prodVoucher], [shiatsuBooking]⟩
        (some prodShiatsu60) none false 0 (some 100) (some 630) =
      .invalid [sessionOverlapMsg] :=
  ⟨(c2_scope_is_shiatsu_category [catShiatsu, catVouchers] [prodShiatsu60, prodVoucher]
      [shiatsuBooking] catShiatsu (by decide)).1 voucherBooking (by decide)
      (some prodShiatsu60) none false 0 (some 100) (some 1000),
    (c2_scope_is_shiatsu_category [catShiatsu, catVouchers] [prodShiatsu60, prodVoucher]
      [shiatsuBooking] catShiatsu (by decide)).2 prodShiatsu60 0 100 630 shiatsuBooking
      (by decide) (by decide) (by decide) (by decide) (by decide) (by decide) (by decide)⟩

/-! ## Claim C7 -/

/-- A Shiatsu admin buffer slot at day 1, 14:00 (covering 14:00 to
14:30). -/
def adminBuffer : Booking :=
  { id := 1, productId := 1, userId := 9, sessionDate := 1, sessionTime := 840,
    notes := "", googleCalendarEventId := none, adminCalendarEventId := none,
    isAdminSlot := true, status := .pending }

/-- State with the Shiatsu category and the admin buffer only. -/
def dbAdminWorld : DB :=
  { categories := [catShiatsu], products := [prodShiatsu60], bookings := [adminBuffer] }

/-- An admin-slot booking whose product belongs to the Gift Vouchers
category, at day 1, 14:00. -/
def foreignAdminBuffer : Booking :=
  { id := 1, productId := 2, userId := 9, sessionDate := 1, sessionTime := 840,
    notes := "", googleCalendarEventId := none, adminCalendarEventId := none,
    isAdminSlot := true, status := .pending }

/-- State with both categories and an admin slot held by a product
outside the Shiatsu Sessions category. -/
def dbForeignAdminWorld : DB :=
  { categories := [catShiatsu, catVouchers], products := [prodShiatsu60, prodVoucher],
    bookings := [foreignAdminBuffer] }

theorem adminOverlapExists_of_mem (db : DB) (cat : Category) (d t dur : Nat) (ab : Booking)
    (hb : ab ∈ db.bookings) (hbc : productInCategory db cat ab.productId = true)
    (hbd : ab.sessionDate = d) (hba : ab.isAdminSlot = true)
    (hov : overlaps (sessionStartOf d t) (sessionStartOf d t + dur)
        (sessionStartOf ab.sessionDate ab.sessionTime)
        (sessionStartOf ab.sessionDate ab.sessionTime + 30) = true) :
    adminOverlapExists db cat d t dur = true := by
  unfold adminOverlapExists adminBookings
  rw [List.any_eq_true]
  exact ⟨ab, List.mem_filter.mpr ⟨hb, by simp [hbc, hbd, hba]⟩, hov⟩

/-- C7: the claim quantifies over every admin-slot booking on the same
date, but the validator only scans admin slots whose product lies in the
Shiatsu Sessions category.  Concretely: in dbForeignAdminWorld the only
admin slot (day 1, 14:00 to 14:30) is held by a Gift Vouchers product;
a Shiatsu candidate at 13:45 overlaps it, yet validation accepts. -/
theorem c7_counterexample :
    foreignAdminBuffer ∈ dbForeignAdminWorld.bookings ∧
      foreignAdminBuffer.isAdminSlot = true ∧
      foreignAdminBuffer.sessionDate = 1 ∧
      overlaps (sessionStartOf 1 825)
        (sessionStartOf 1 825 + durationOr60 prodShiatsu60.durationMinutes)
        (sessionStartOf foreignAdminBuffer.sessionDate foreignAdminBuffer.sessionTime)
        (sessionStartOf foreignAdminBuffer.sessionDate foreignAdminBuffer.sessionTime + 30) =
        true ∧
      BookingForm.full_clean dbForeignAdminWorld (some prodShiatsu60) none false 0
        (some 1) (some 825) = .valid 1 825 := by
  decide

/-- C7 (amended): whenever the candidate interval intersects the
30-minute interval of an admin-slot booking whose product lies in the
Shiatsu Sessions category on the same date, and the candidate passes the
checks that run first (a product supplied, exactly one Shiatsu Sessions
category, 24-hour notice satisfied, no session overlap), validation
rejects with the admin-slot-conflict message. -/
theorem c7_admin_buffer_conflict
    (db : DB) (cat : Category) (p : Product) (excludePk : Option Nat)
    (flag : Bool) (now d t : Nat) (ab : Booking)
    (hcat : shiatsuCategories db = [cat]) (ht : t < 1440)
    (h24 : ¬ d * 1440 + t < now + 24 * 60)
    (hno : sessionOverlapExists db cat excludePk d t (durationOr60 p.durationMinutes) = false)
    (hab : ab ∈ db.bookings) (habc : productInCategory db cat ab.productId = true)
    (habd : ab.sessionDate = d) (haba : ab.isAdminSlot = true)
    (hov : overlaps (sessionStartOf d t)
        (sessionStartOf d t + durationOr60 p.durationMinutes)
        (sessionStartOf ab.sessionDate ab.sessionTime)
        (sessionStartOf ab.sessionDate ab.sessionTime + 30) = true) :
    BookingForm.full_clean db (some p) excludePk flag now (some d) (some t) =
      .invalid [adminConflictMsg] := by
  have hex : adminOverlapExists db cat d t (durationOr60 p.durationMinutes) = true :=
    adminOverlapExists_of_mem db cat d t _ ab hab habc habd haba hov
  have hclean : BookingForm.clean db (some p) excludePk flag now (some d) (some t) =
      .validationError adminConflictMsg := by
    rw [clean_cat db p excludePk flag now d t cat hcat]
    unfold cleanChecks
    rw [if_neg h24, if_neg (by simp [hno]), if_pos hex]
  exact full_clean_of_clean_err db (some p) excludePk flag now d t _
    (not_past_of_advance now d t ht h24) hclean

/-- Witness for C7, reproducing the example of the spec: an admin buffer
at 14:00 to 14:30 tomorrow, a session request at 13:45 overlapping it,
rejected with the admin-slot-conflict message. -/
theorem c7_admin_buffer_conflict_witness :
    BookingForm.full_clean dbAdminWorld (some prodShiatsu60) none false 0
      (some 1) (some 825) = .invalid [adminConflictMsg] :=
  c7_admin_buffer_conflict dbAdminWorld catShiatsu prodShiatsu60 none false 0 1 825
    adminBuffer (by decide) (by decide) (by decide) (by decide) (by decide) (by decide)
    (by decide) (by decide) (by decide)

/-! ## Claim C8 -/

/-- C8: the claim asserts that every candidate less than 24 hours ahead
is rejected with the advance-notice message, but a candidate whose date
is already in the past is rejected by clean_session_date instead, and
the advance-notice check never runs.  Concretely at now = day 10, 00:00:
a submission for day 5, 10:00 is less than 24 hours ahead, yet the only
error is the past-date message. -/
theorem c8_counterexample :
    5 * 1440 + 600 < 14400 + 24 * 60 ∧
      BookingForm.full_clean dbShiatsuWorld (some prodShiatsu60) none false 14400
        (some 5) (some 600) = .invalid [pastDateMsg] ∧
      pastDateMsg ≠ advanceNoticeMsg := by
  decide

/-- C8 (amended): for every candidate with a product supplied and
exactly one Shiatsu Sessions category, whose session date is not in the
past, a combined session datetime strictly less than 24 hours after now
is rejected as a validation error carrying exactly the advance-notice
message, regardless of the bookings present in the database. -/
theorem c8_advance_notice
    (db : DB) (cat : Category) (p : Product) (excludePk : Option Nat)
    (flag : Bool) (now d t : Nat)
    (hcat : shiatsuCategories db = [cat])
    (hpast : ¬ d < now / 1440)
    (h24 : d * 1440 + t < now + 24 * 60) :
    BookingForm.full_clean db (some p) excludePk flag now (some d) (some t) =
      .invalid [advanceNoticeMsg] := by
  have hclean : BookingForm.clean db (some p) excludePk flag now (some d) (some t) =
      .validationError advanceNoticeMsg := by
    rw [clean_cat db p excludePk flag now d t cat hcat]
    unfold cleanChecks
    rw [if_pos h24]
  exact full_clean_of_clean_err db (some p) excludePk flag now d t _ hpast hclean

/-- Witness for C8: at now = day 10, 00:00, a candidate for day 10,
10:00 (10 hours ahead) fails with the advance-notice message even though
dbShiatsuWorld holds no conflicting booking on that date. -/
theorem c8_advance_notice_witness :
    BookingForm.full_clean dbShiatsuWorld (some prodShiatsu60) none false 14400
      (some 10) (some 600) = .invalid [advanceNoticeMsg] :=
  c8_advance_notice dbShiatsuWorld catShiatsu prodShiatsu60 none false 14400 10 600
    (by decide) (by decide) (by decide)

/-! ## Claim C9 -/

/-- C9: supplying both fields does not by itself force the
product-required message: when the supplied session date lies in the
past, clean_session_date removes it from cleaned_data, clean returns
without reaching the product check, and the only error is the past-date
message.  Concretely at now = day 10: editing with date day 4, 10:00. -/
theorem c9_counterexample :
    BookingForm.full_clean dbShiatsuWorld none (some 1) false 14400
        (some 4) (some 600) = .invalid [pastDateMsg] ∧
      pastDateMsg ≠ productRequiredMsg := by
  decide

/-- C9 (amended): the edit-booking view builds the form without a
product, so no submission is ever saved and the database is always left
unchanged; and whenever both fields are supplied and the session date is
not in the past, validation fails with exactly the product-required
message. -/
theorem c9_edit_view_never_saves (svc : CalendarSvc) (db : DB) (now : Nat)
    (booking : Booking) (rawDate rawTime : Option Nat) :
    edit_booking_post svc db now booking rawDate rawTime = (db, false) ∧
      (∀ d t : Nat, rawDate = some d → rawTime = some t → ¬ d < now / 1440 →
        BookingForm.full_clean db none (some booking.id) booking.isAdminSlot now
          rawDate rawTime = .invalid [productRequiredMsg]) := by
  constructor
  · rcases rawDate with _ | d
    · rfl
    by_cases hpd : d < now / 1440
    · have hd : dateFieldResult now (some d) = (none, [pastDateMsg]) := by
        simp [dateFieldResult, clean_session_date, hpd]
      unfold edit_booking_post BookingForm.full_clean
      rw [hd]
      rfl
    · have hd : dateFieldResult now (some d) = (some d, []) := date_field_ok now d hpd
      rcases rawTime with _ | t
      · unfold edit_booking_post BookingForm.full_clean
        rw [hd]
        rfl
      · unfold edit_booking_post BookingForm.full_clean
        rw [hd]
        rfl
  · intro d t hdv htv hpd
    subst hdv
    subst htv
    have hclean : BookingForm.clean db none (some booking.id) booking.isAdminSlot now
        (some d) (some t) = .validationError productRequiredMsg := rfl
    exact full_clean_of_clean_err db none (some booking.id) booking.isAdminSlot now d t _
      hpd hclean

/-- Witness for C9: editing the stored Shiatsu booking with a fresh
future date leaves the database unchanged and reports the
product-required error. -/
theorem c9_edit_view_never_saves_witness :
    edit_booking_post svcFail dbShiatsuWorld 0 shiatsuBooking (some 50) (some 600) =
        (dbShiatsuWorld, false) ∧
      BookingForm.full_clean dbShiatsuWorld none (some shiatsuBooking.id)
        shiatsuBooking.isAdminSlot 0 (some 50) (some 600) =
        .invalid [productRequiredMsg] :=
  ⟨(c9_edit_view_never_saves svcFail dbShiatsuWorld 0 shiatsuBooking (some 50)
      (some 600)).1,
    (c9_edit_view_never_saves svcFail dbShiatsuWorld 0 shiatsuBooking (some 50)
      (some 600)).2 50 600 rfl rfl (by decide)⟩

/-! ## Claim C3 -/

/-- C3: the claim (and the spec) say the public booking view does not
catch the database uniqueness violation.  In the source the save is
wrapped in try/except IntegrityError, which adds a form error instead.
Concretely: in dbVoucherWorld a submission for the exact slot of the
existing voucher booking passes validation (the overlap scan only
consults the Shiatsu Sessions category), the insert raises, and the view
responds with the re-rendered form carrying the already-booked message
rather than an unhandled integrity failure. -/
theorem c3_counterexample :
    BookingForm.full_clean dbVoucherWorld (some prodVoucher) none false 0
        (some 100) (some 600) = .valid 100 600 ∧
      DB.insertBooking dbVoucherWorld
        (viewBooking prodVoucher 9 dbVoucherWorld.freshPk 100 600 "") =
        .error "IntegrityError: unique_booking_per_type_per_slot" ∧
      product_detail_post svcFail dbVoucherWorld 0 prodVoucher 9 (some 100)
        (some 600) "" = (dbVoucherWorld, .renderFormError [alreadyBookedMsg]) :=
  ⟨by decide, rfl, by decide⟩

/-- C3 (amended): database uniqueness violations are caught at both
layers.  The admin save converts the IntegrityError into a user-facing
message and leaves the database unchanged; the public booking view
converts it into the already-booked form error and leaves the database
unchanged, so no integrity failure propagates from either layer. -/
theorem c3_integrity_error_handled :
    (∀ (db : DB) (obj : Booking), (∃ e, db.insertBooking obj = .error e) →
      BookingAdmin.save_model db obj = (db, some adminDuplicateMsg)) ∧
    (∀ (svc : CalendarSvc) (db : DB) (now : Nat) (p : Product) (userId : Nat)
      (rawDate rawTime : Option Nat) (notes : String) (d t : Nat),
      BookingForm.full_clean db (some p) none false now rawDate rawTime = .valid d t →
      (∃ e, db.insertBooking (viewBooking p userId db.freshPk d t notes) = .error e) →
      product_detail_post svc db now p userId rawDate rawTime notes =
        (db, .renderFormError [alreadyBookedMsg])) := by
  constructor
  · intro db obj ⟨e, he⟩
    unfold BookingAdmin.save_model
    rw [he]
  · intro svc db now p userId rawDate rawTime notes d t hvalid ⟨e, he⟩
    unfold product_detail_post
    rw [hvalid]
    simp only [he]

/-- Witness for C3 at the colliding voucher submission. -/
theorem c3_integrity_error_handled_witness :
    BookingAdmin.save_model dbVoucherWorld
        (viewBooking prodVoucher 9 dbVoucherWorld.freshPk 100 600 "") =
        (dbVoucherWorld, some adminDuplicateMsg) ∧
      product_detail_post svcFail dbVoucherWorld 0 prodVoucher 9 (some 100)
        (some 600) "" = (dbVoucherWorld, .renderFormError [alreadyBookedMsg]) :=
  ⟨c3_integrity_error_handled.1 dbVoucherWorld
      (viewBooking prodVoucher 9 dbVoucherWorld.freshPk 100 600 "")
      ⟨"IntegrityError: unique_booking_per_type_per_slot", rfl⟩,
    c3_integrity_error_handled.2 svcFail dbVoucherWorld 0 prodVoucher 9 (some 100)
      (some 600) "" 100 600 (by decide)
      ⟨"IntegrityError: unique_booking_per_type_per_slot", rfl⟩⟩

/-! ## Claim C5 -/

theorem bulkSetStatus_mem (db : DB) (sel : List Nat) (s : Status) (b : Booking)
    (hb : b ∈ (db.bulkSetStatus sel s).bookings) (hsel : sel.contains b.id = true) :
    b.status = s := by
  unfold DB.bulkSetStatus at hb
  rcases List.mem_map.mp hb with ⟨a, _, hab⟩
  by_cases hc : sel.contains a.id = true
  · rw [if_pos hc] at hab
    rw [← hab]
  · rw [if_neg hc] at hab
    subst hab
    exact absurd hsel hc

/-- C5: the approve, reschedule and refund bulk actions are guarded by a
staff-or-superuser check.  For a principal with neither flag the
database is returned unchanged and only a message is produced; for a
privileged principal every selected booking ends with the corresponding
status. -/
theorem c5_status_actions_guarded (u : Principal) (db : DB) (sel : List Nat) :
    ((u.isStaff || u.isSuperuser) = false →
      (approve_bookings u db sel).1 = db ∧ (mark_reschedule u db sel).1 = db ∧
        (mark_refund u db sel).1 = db) ∧
    ((u.isStaff || u.isSuperuser) = true →
      (∀ b ∈ (approve_bookings u db sel).1.bookings, sel.contains b.id = true →
        b.status = .approved) ∧
      (∀ b ∈ (mark_reschedule u db sel).1.bookings, sel.contains b.id = true →
        b.status = .reschedule) ∧
      (∀ b ∈ (mark_refund u db sel).1.bookings, sel.contains b.id = true →
        b.status = .refund)) := by
  constructor
  · intro hu
    refine ⟨?_, ?_, ?_⟩ <;> simp [approve_bookings, mark_reschedule, mark_refund, hu]
  · intro hu
    refine ⟨?_, ?_, ?_⟩ <;> intro b hb hsel
    · exact bulkSetStatus_mem db sel .approved b
        (by simpa [approve_bookings, hu] using hb) hsel
    · exact bulkSetStatus_mem db sel .reschedule b
        (by simpa [mark_reschedule, hu] using hb) hsel
    · exact bulkSetStatus_mem db sel .refund b
        (by simpa [mark_refund, hu] using hb) hsel

/-- Witness for C5: an unprivileged principal changes nothing through
any of the three guarded actions, and a staff principal approving the
stored booking ends with it approved. -/
theorem c5_status_actions_guarded_witness :
    ((approve_bookings ⟨false, false⟩ dbShiatsuWorld [1]).1 = dbShiatsuWorld ∧
      (mark_reschedule ⟨false, false⟩ dbShiatsuWorld [1]).1 = dbShiatsuWorld ∧
      (mark_refund ⟨false, false⟩ dbShiatsuWorld [1]).1 = dbShiatsuWorld) ∧
    ({ shiatsuBooking with status := Status.approved } : Booking).status =
      Status.approved :=
  ⟨(c5_status_actions_guarded ⟨false, false⟩ dbShiatsuWorld [1]).1 (by decide),
    ((c5_status_actions_guarded ⟨true, false⟩ dbShiatsuWorld [1]).2 (by decide)).1
      { shiatsuBooking with status := Status.approved } (by decide) (by decide)⟩

/-! ## Claim C6 -/

/-- A booking row with its two external event id fields blanked, i.e.
everything the calendar mirror is not allowed to change. -/
def stripEventIds (x : Booking) : Booking :=
  { x with googleCalendarEventId := none, adminCalendarEventId := none }

/-- Every booking row of the first state survives into the second with
the same primary key and unchanged fields apart from the stored event
ids. -/
def preservesRows (db db' : DB) : Prop :=
  ∀ x ∈ db.bookings, ∃ y ∈ db'.bookings, y.id = x.id ∧ stripEventIds y = stripEventIds x

theorem preservesRows_refl (db : DB) : preservesRows db db :=
  fun x hx => ⟨x, hx, rfl, rfl⟩

theorem preservesRows_trans {a b c : DB} (h1 : preservesRows a b)
    (h2 : preservesRows b c) : preservesRows a c := by
  intro x hx
  rcases h1 x hx with ⟨y, hy, hid, hs⟩
  rcases h2 y hy with ⟨z, hz, hid2, hs2⟩
  exact ⟨z, hz, hid2.trans hid, hs2.trans hs⟩

theorem preservesRows_setEventIds (db : DB) (pk : Nat) (g a : Option String) :
    preservesRows db (db.setEventIds pk g a) := by
  intro x hx
  refine ⟨if x.id == pk then
      { x with googleCalendarEventId := g, adminCalendarEventId := a } else x,
    List.mem_map_of_mem _ hx, ?_, ?_⟩ <;>
    by_cases h : (x.id == pk) = true <;> simp [h, stripEventIds]

theorem preservesRows_setGoogleEventId (db : DB) (pk : Nat) (g : String) :
    preservesRows db (db.setGoogleEventId pk g) := by
  intro x hx
  refine ⟨if x.id == pk then { x with googleCalendarEventId := some g } else x,
    List.mem_map_of_mem _ hx, ?_, ?_⟩ <;>
    by_cases h : (x.id == pk) = true <;> simp [h, stripEventIds]

theorem insertBooking_ok_shape {db db' : DB} {b : Booking}
    (h : db.insertBooking b = .ok db') :
    db'.categories = db.categories ∧ db'.products = db.products ∧
      db'.bookings = db.bookings ++ [b] := by
  unfold DB.insertBooking at h
  by_cases h1 : (db.bookings.any fun x => x.id == b.id) = true
  · rw [if_pos h1] at h
    cases h
  · rw [if_neg h1] at h
    by_cases h2 : (db.bookings.any fun x => sameSlotB x b) = true
    · rw [if_pos h2] at h
      cases h
    · rw [if_neg h2] at h
      cases h
      exact ⟨rfl, rfl, rfl⟩

theorem preservesRows_insert_ok {db db' : DB} {b : Booking}
    (h : db.insertBooking b = .ok db') : preservesRows db db' := by
  intro x hx
  refine ⟨x, ?_, rfl, rfl⟩
  rw [(insertBooking_ok_shape h).2.2]
  exact List.mem_append_left _ hx

theorem create_event_preserves (svc : CalendarSvc) (db : DB) (b : Booking) :
    preservesRows db (GoogleCalendarService.create_event svc db b).2 ∧
      (GoogleCalendarService.create_event svc db b).2.products = db.products ∧
      (GoogleCalendarService.create_event svc db b).2.categories = db.categories := by
  rcases hA : svc.auth with e | u
  · have heq : GoogleCalendarService.create_event svc db b = (none, db) := by
      simp [GoogleCalendarService.create_event, hA]
    rw [heq]
    exact ⟨preservesRows_refl db, rfl, rfl⟩
  cases hAdm : b.isAdminSlot
  case true =>
    have heq : GoogleCalendarService.create_event svc db b = (none, db) := by
      simp [GoogleCalendarService.create_event, hA, hAdm]
    rw [heq]
    exact ⟨preservesRows_refl db, rfl, rfl⟩
  rcases hI : svc.insertSession with e | oid
  · have heq : GoogleCalendarService.create_event svc db b = (none, db) := by
      simp [GoogleCalendarService.create_event, hA, hAdm, hI]
    rw [heq]
    exact ⟨preservesRows_refl db, rfl, rfl⟩
  rcases hI2 : svc.insertAdmin with e2 | aid
  · have heq : GoogleCalendarService.create_event svc db b = (none, db) := by
      simp [GoogleCalendarService.create_event, hA, hAdm, hI, hI2]
    rw [heq]
    exact ⟨preservesRows_refl db, rfl, rfl⟩
  rcases hins : (db.setEventIds b.id oid aid).insertBooking
      (adminSlotBooking (db.setEventIds b.id oid aid) b) with e3 | db3
  · have heq : GoogleCalendarService.create_event svc db b =
        (none, db.setEventIds b.id oid aid) := by
      simp [GoogleCalendarService.create_event, hA, hAdm, hI, hI2, hins]
    rw [heq]
    exact ⟨preservesRows_setEventIds db b.id oid aid, rfl, rfl⟩
  · have hshape := insertBooking_ok_shape hins
    have hpr : preservesRows db db3 :=
      preservesRows_trans (preservesRows_setEventIds db b.id oid aid)
        (preservesRows_insert_ok hins)
    have hprod : db3.products = db.products := hshape.2.1
    have hcats : db3.categories = db.categories := hshape.1
    rcases oid with _ | eid
    · have heq : GoogleCalendarService.create_event svc db b = (none, db3) := by
        simp [GoogleCalendarService.create_event, hA, hAdm, hI, hI2, hins]
      rw [heq]
      exact ⟨hpr, hprod, hcats⟩
    · have heq : GoogleCalendarService.create_event svc db b = (some eid, db3) := by
        simp [GoogleCalendarService.create_event, hA, hAdm, hI, hI2, hins]
      rw [heq]
      exact ⟨hpr, hprod, hcats⟩

/-- C6: every failure behaviour of the external calendar service,
including one where authentication, event insert and event update all
raise, is absorbed inside the post-save hook: the handler is a total
function of the service behaviour (each failing branch of the try/except
structure of the source is matched away), the products and categories are
untouched, and every booking row survives with its primary key and all
fields other than the two stored event ids unchanged. -/
theorem c6_calendar_failures_contained (svc : CalendarSvc) (db : DB) (b : Booking)
    (created : Bool) :
    preservesRows db (create_or_update_calendar_event svc db b created) ∧
      (create_or_update_calendar_event svc db b created).products = db.products ∧
      (create_or_update_calendar_event svc db b created).categories = db.categories := by
  unfold create_or_update_calendar_event
  cases hAdm : b.isAdminSlot
  case true => exact ⟨preservesRows_refl db, rfl, rfl⟩
  have hbase := create_event_preserves svc db b
  cases created
  · rcases hG : b.googleCalendarEventId with _ | eid
    · rcases hc : GoogleCalendarService.create_event svc db b with ⟨oid, db2⟩
      rw [hc] at hbase
      rcases oid with _ | eid2
      · exact hbase
      · exact ⟨preservesRows_trans hbase.1 (preservesRows_setGoogleEventId db2 b.id eid2),
          hbase.2.1, hbase.2.2⟩
    · exact ⟨preservesRows_refl db, rfl, rfl⟩
  · rcases hc : GoogleCalendarService.create_event svc db b with ⟨oid, db2⟩
    rw [hc] at hbase
    rcases oid with _ | eid2
    · exact hbase
    · exact ⟨preservesRows_trans hbase.1 (preservesRows_setGoogleEventId db2 b.id eid2),
        hbase.2.1, hbase.2.2⟩

/-- Witness for C6: with the all-failing service, the stored Shiatsu
booking survives the create-path of the hook unchanged apart from event
ids. -/
theorem c6_calendar_failures_contained_witness :
    (∃ y ∈ (create_or_update_calendar_event svcFail dbShiatsuWorld shiatsuBooking
        true).bookings,
      y.id = shiatsuBooking.id ∧ stripEventIds y = stripEventIds shiatsuBooking) ∧
      (create_or_update_calendar_event svcFail dbShiatsuWorld shiatsuBooking
        true).products = dbShiatsuWorld.products :=
  ⟨(c6_calendar_failures_contained svcFail dbShiatsuWorld shiatsuBooking true).1
      shiatsuBooking (by decide),
    (c6_calendar_failures_contained svcFail dbShiatsuWorld shiatsuBooking true).2.1⟩

/-! ## Claim C10 -/

/-- A Shiatsu product with no stored duration. -/
def prodOpenEnded : Product :=
  { id := 3, categoryId := 1, name := "Open Session", durationMinutes := none,
    isActive := true }

/-- A stored booking of the open-ended product. -/
def openBooking : Booking :=
  { id := 1, productId := 3, userId := 9, sessionDate := 100, sessionTime := 600,
    notes := "", googleCalendarEventId := none, adminCalendarEventId := none,
    isAdminSlot := false, status := .pending }

/-- State containing the open-ended product and a booking of it. -/
def dbOpenWorld : DB :=
  { categories := [catShiatsu], products := [prodOpenEnded], bookings := [openBooking] }

/-- C10: a product whose duration_minutes is None (or 0, both falsy in
the source expression duration_minutes or 60) is treated as lasting 60
minutes everywhere a duration is consumed: the fallback itself, the
whole form validation of a candidate for that product (identical to a
60-minute product), the interval of every existing booking resolving to
that product, and the end time of the calendar event built for such a
booking. -/
theorem c10_default_duration (p : Product)
    (h : p.durationMinutes = none ∨ p.durationMinutes = some 0) :
    durationOr60 p.durationMinutes = 60 ∧
      (∀ (db : DB) (excludePk : Option Nat) (flag : Bool) (now : Nat)
        (rawDate rawTime : Option Nat),
        BookingForm.full_clean db (some p) excludePk flag now rawDate rawTime =
          BookingForm.full_clean db (some { p with durationMinutes := some 60 })
            excludePk flag now rawDate rawTime) ∧
      (∀ (db : DB) (b : Booking), bookingProduct db b = some p →
        bookingDuration db b = 60) ∧
      (∀ (db : DB) (b : Booking), bookingProduct db b = some p →
        (sessionEvent db b).endMinutes = (sessionEvent db b).startMinutes + 60) := by
  have h60 : durationOr60 p.durationMinutes = 60 := by
    rcases h with h | h <;> rw [h] <;> rfl
  refine ⟨h60, ?_, ?_, ?_⟩
  · intro db excludePk flag now rawDate rawTime
    unfold BookingForm.full_clean
    rcases hdv : (dateFieldResult now rawDate).1 with _ | d
    · rfl
    rcases htv : (timeFieldResult rawTime).1 with _ | t
    · rfl
    have hc : BookingForm.clean db (some p) excludePk flag now (some d) (some t) =
        BookingForm.clean db (some { p with durationMinutes := some 60 }) excludePk
          flag now (some d) (some t) := by
      rcases hsc : shiatsuCategories db with _ | ⟨c, _ | ⟨c2, cs⟩⟩
      · simp [BookingForm.clean, hsc]
      · rw [clean_cat db p excludePk flag now d t c hsc,
          clean_cat db _ excludePk flag now d t c hsc]
        unfold cleanChecks
        have hp : ({ p with durationMinutes := some 60 } : Product).durationMinutes =
            some 60 := rfl
        have h60b : durationOr60 (some 60) = 60 := rfl
        rw [hp, h60, h60b]
      · simp [BookingForm.clean, hsc]
    rw [hc]
  · intro db b hb
    unfold bookingDuration
    rw [hb]
    exact h60
  · intro db b hb
    have hbd : bookingDuration db b = 60 := by
      unfold bookingDuration
      rw [hb]
      exact h60
    show sessionStartOf b.sessionDate b.sessionTime + bookingDuration db b =
      sessionStartOf b.sessionDate b.sessionTime + 60
    rw [hbd]

/-- Witness for C10 at the open-ended product: the fallback, the
validation equivalence at a concrete submission, the interval length of
the stored booking and the calendar event end all use 60 minutes. -/
theorem c10_default_duration_witness :
    durationOr60 prodOpenEnded.durationMinutes = 60 ∧
      BookingForm.full_clean dbOpenWorld (some prodOpenEnded) none false 0
          (some 100) (some 630) =
        BookingForm.full_clean dbOpenWorld
          (some { prodOpenEnded with durationMinutes := some 60 }) none false 0
          (some 100) (some 630) ∧
      bookingDuration dbOpenWorld openBooking = 60 ∧
      (sessionEvent dbOpenWorld openBooking).endMinutes =
        (sessionEvent dbOpenWorld openBooking).startMinutes + 60 := by
  exact ⟨(c10_default_duration prodOpenEnded (Or.inl rfl)).1,
    (c10_default_duration prodOpenEnded (Or.inl rfl)).2.1 dbOpenWorld none false 0
      (some 100) (some 630),
    (c10_default_duration prodOpenEnded (Or.inl rfl)).2.2.1 dbOpenWorld
      openBooking (by decide),
    (c10_default_duration prodOpenEnded (Or.inl rfl)).2.2.2 dbOpenWorld
      openBooking (by decide)⟩

/-! ## Claim C4 -/

theorem countP_map_le_of {α : Type} (f : α → α) (p q : α → Bool) (l : List α)
    (h : ∀ x ∈ l, p (f x) = true → q x = true) :
    (l.map f).countP p ≤ l.countP q := by
  induction l with
  | nil => simp
  | cons a l ih =>
    simp only [List.map_cons, List.countP_cons]
    have ih' := ih fun x hx hpx => h x (List.mem_cons_of_mem a hx) hpx
    by_cases hpa : p (f a) = true
    · have hqa : q a = true := h a (List.mem_cons_self a l) hpa
      simp only [hpa, hqa, if_pos]
      omega
    · have hpa' : p (f a) = false := by simpa using hpa
      rw [if_neg (by simp [hpa'])]
      calc (l.map f).countP p + 0 = (l.map f).countP p := by omega
        _ ≤ l.countP q := ih'
        _ ≤ l.countP q + (if q a = true then 1 else 0) := Nat.le_add_right _ _

theorem countP_le_one_of_nodup_ids (l : List Booking)
    (h : (l.map Booking.id).Nodup) (c : Nat) :
    l.countP (fun x => x.id == c) ≤ 1 := by
  induction l with
  | nil => simp
  | cons a l ih =>
    rw [List.map_cons, List.nodup_cons] at h
    rw [List.countP_cons]
    by_cases ha : (a.id == c) = true
    · have hac : a.id = c := by simpa using ha
      have h0 : l.countP (fun x => x.id == c) = 0 := by
        rw [List.countP_eq_zero]
        intro x hx hxc
        have hxc' : x.id = c := by simpa using hxc
        exact h.1 (List.mem_map.mpr ⟨x, hx, by rw [hxc', hac]⟩)
      simp [ha, h0]
    · simp [ha]
      exact ih h.2

theorem map_id_comp_eq (f : Booking → Booking) (h : ∀ x, (f x).id = x.id)
    (l : List Booking) : (l.map f).map Booking.id = l.map Booking.id := by
  induction l with
  | nil => rfl
  | cons a l ih => simp [h a, ih]

/-- Primary keys stay distinct and every constrained quadruple is held
by at most one row, along every reachable state. -/
theorem reachable_nodup_count (db : DB) (h : Reachable db) :
    (db.bookings.map Booking.id).Nodup ∧
      ∀ (p d t : Nat) (fl : Bool), slotCount db p d t fl ≤ 1 := by
  induction h with
  | init cats prods =>
    exact ⟨List.nodup_nil, fun p d t fl => by simp [slotCount]⟩
  | @insert db db' b hre hok ih =>
    unfold DB.insertBooking at hok
    by_cases h1 : (db.bookings.any fun x => x.id == b.id) = true
    · rw [if_pos h1] at hok
      cases hok
    rw [if_neg h1] at hok
    by_cases h2 : (db.bookings.any fun x => sameSlotB x b) = true
    · rw [if_pos h2] at hok
      cases hok
    rw [if_neg h2] at hok
    cases hok
    constructor
    · show ((db.bookings ++ [b]).map Booking.id).Nodup
      rw [List.map_append, List.nodup_append]
      refine ⟨ih.1, by simp, ?_⟩
      intro a ha hb2
      rcases List.mem_map.mp ha with ⟨x, hx, hxid⟩
      have hbid : a = b.id := by simpa using hb2
      apply h1
      refine List.any_eq_true.mpr ⟨x, hx, ?_⟩
      simp [hxid, hbid]
    · intro p d t fl
      show ((db.bookings ++ [b]).countP fun x => x.productId == p &&
        x.sessionDate == d && x.sessionTime == t && x.isAdminSlot == fl) ≤ 1
      rw [List.countP_append]
      by_cases hbq : (b.productId == p && b.sessionDate == d && b.sessionTime == t &&
          b.isAdminSlot == fl) = true
      · have h0 : (db.bookings.countP fun x => x.productId == p && x.sessionDate == d &&
            x.sessionTime == t && x.isAdminSlot == fl) = 0 := by
          rw [List.countP_eq_zero]
          intro x hx hxq
          apply h2
          refine List.any_eq_true.mpr ⟨x, hx, ?_⟩
          simp only [Bool.and_eq_true, beq_iff_eq] at hxq hbq
          simp [sameSlotB, hxq.1.1.1, hxq.1.1.2, hxq.1.2, hxq.2,
            hbq.1.1.1, hbq.1.1.2, hbq.1.2, hbq.2]
        rw [h0]
        simp [hbq]
      · have hbq' : (b.productId == p && b.sessionDate == d && b.sessionTime == t &&
            b.isAdminSlot == fl) = false := by simpa using hbq
        have h1b : (List.countP (fun x => x.productId == p && x.sessionDate == d &&
            x.sessionTime == t && x.isAdminSlot == fl) [b]) = 0 := by
          simp [hbq']
        rw [h1b]
        simpa [slotCount] using ih.2 p d t fl
  | @update db db' b hre hok ih =>
    unfold DB.updateBooking at hok
    by_cases hcf : (db.bookings.any fun x => x.id != b.id && sameSlotB x b) = true
    · rw [if_pos hcf] at hok
      cases hok
    rw [if_neg hcf] at hok
    cases hok
    have hid : ∀ x : Booking, ((fun x => if x.id == b.id then b else x) x).id = x.id := by
      intro x
      show (if (x.id == b.id) = true then b else x).id = x.id
      by_cases hxb : (x.id == b.id) = true
      · have h' : x.id = b.id := by simpa using hxb
        rw [if_pos hxb, h']
      · rw [if_neg hxb]
    constructor
    · show ((db.bookings.map fun x => if x.id == b.id then b else x).map Booking.id).Nodup
      rw [map_id_comp_eq _ hid]
      exact ih.1
    · intro p d t fl
      show ((db.bookings.map fun x => if x.id == b.id then b else x).countP
        fun x => x.productId == p && x.sessionDate == d && x.sessionTime == t &&
          x.isAdminSlot == fl) ≤ 1
      by_cases hbq : (b.productId == p && b.sessionDate == d && b.sessionTime == t &&
          b.isAdminSlot == fl) = true
      · refine le_trans (countP_map_le_of _ _ (fun x => x.id == b.id) db.bookings ?_)
          (countP_le_one_of_nodup_ids db.bookings ih.1 b.id)
        intro x hx hpx
        by_cases hxb : (x.id == b.id) = true
        · exact hxb
        exfalso
        rw [if_neg hxb] at hpx
        apply hcf
        refine List.any_eq_true.mpr ⟨x, hx, ?_⟩
        have hxb0 : (x.id == b.id) = false := by simpa using hxb
        simp only [Bool.and_eq_true, beq_iff_eq] at hpx hbq
        simp [bne, hxb0, sameSlotB, hpx.1.1.1, hpx.1.1.2, hpx.1.2, hpx.2,
          hbq.1.1.1, hbq.1.1.2, hbq.1.2, hbq.2]
      · have hbq' : (b.productId == p && b.sessionDate == d && b.sessionTime == t &&
            b.isAdminSlot == fl) = false := by simpa using hbq
        refine le_trans (countP_map_le_of _ _ (fun x => x.productId == p &&
          x.sessionDate == d && x.sessionTime == t && x.isAdminSlot == fl)
          db.bookings ?_) (by simpa [slotCount] using ih.2 p d t fl)
        intro x hx hpx
        by_cases hxb : (x.id == b.id) = true
        · rw [if_pos hxb] at hpx
          exact absurd hbq' (by simp [hpx])
        · rw [if_neg hxb] at hpx
          exact hpx
  | @delete db pk hre ih =>
    constructor
    · show ((db.bookings.filter fun x => x.id != pk).map Booking.id).Nodup
      exact List.Nodup.sublist ((List.filter_sublist _).map Booking.id) ih.1
    · intro p d t fl
      show ((db.bookings.filter fun x => x.id != pk).countP fun x =>
        x.productId == p && x.sessionDate == d && x.sessionTime == t &&
          x.isAdminSlot == fl) ≤ 1
      exact le_trans (List.Sublist.countP_le _ (List.filter_sublist _))
        (by simpa [slotCount] using ih.2 p d t fl)
  | @bulkStatus db sel s hre ih =>
    have hid : ∀ x : Booking,
        ((fun b => if sel.contains b.id then { b with status := s } else b) x).id = x.id := by
      intro x
      show (if sel.contains x.id = true then { x with status := s } else x).id = x.id
      by_cases hc : sel.contains x.id = true
      · rw [if_pos hc]
      · rw [if_neg hc]
    constructor
    · show ((db.bookings.map fun b => if sel.contains b.id then { b with status := s }
        else b).map Booking.id).Nodup
      rw [map_id_comp_eq _ hid]
      exact ih.1
    · intro p d t fl
      show ((db.bookings.map fun b => if sel.contains b.id then { b with status := s }
        else b).countP fun x => x.productId == p && x.sessionDate == d &&
          x.sessionTime == t && x.isAdminSlot == fl) ≤ 1
      refine le_trans (countP_map_le_of _ _ (fun x => x.productId == p &&
        x.sessionDate == d && x.sessionTime == t && x.isAdminSlot == fl)
        db.bookings ?_) (by simpa [slotCount] using ih.2 p d t fl)
      intro x hx hpx
      by_cases hc : sel.contains x.id = true
      · rw [if_pos hc] at hpx
        exact hpx
      · rw [if_neg hc] at hpx
        exact hpx

/-- C4: along every database state reachable through the write
operations of the application, each (product, session_date,
session_time) triple carries at most one non-admin-slot row and at most
one admin-slot row, and any insert or update that would place a second
row of the same kind on an occupied quadruple is refused with an
IntegrityError by the unique_booking_per_type_per_slot constraint. -/
theorem c4_unique_slot_invariant (db : DB) (h : Reachable db) :
    (∀ (p d t : Nat) (fl : Bool), slotCount db p d t fl ≤ 1) ∧
      (∀ b : Booking, (∃ x ∈ db.bookings, sameSlotB x b = true) →
        ∃ e, db.insertBooking b = .error e) ∧
      (∀ b : Booking, (∃ x ∈ db.bookings, x.id ≠ b.id ∧ sameSlotB x b = true) →
        ∃ e, db.updateBooking b = .error e) := by
  refine ⟨(reachable_nodup_count db h).2, ?_, ?_⟩
  · intro b ⟨x, hx, hs⟩
    unfold DB.insertBooking
    by_cases h1 : (db.bookings.any fun y => y.id == b.id) = true
    · exact ⟨"IntegrityError: duplicate primary key", by rw [if_pos h1]⟩
    · refine ⟨"IntegrityError: unique_booking_per_type_per_slot", ?_⟩
      rw [if_neg h1, if_pos (List.any_eq_true.mpr ⟨x, hx, hs⟩)]
  · intro b ⟨x, hx, hne, hs⟩
    unfold DB.updateBooking
    refine ⟨"IntegrityError: unique_booking_per_type_per_slot", ?_⟩
    rw [if_pos (List.any_eq_true.mpr ⟨x, hx, ?_⟩)]
    simp [Bool.and_eq_true, bne_iff_ne, hne, hs]

/-- Witness for C4: the empty booking table is reachable and satisfies
the bound at a sample quadruple, and inserting on top of an occupied
quadruple is refused. -/
theorem c4_unique_slot_invariant_witness :
    Reachable (⟨[catShiatsu], [prodShiatsu60], []⟩ : DB) ∧
      slotCount ⟨[catShiatsu], [prodShiatsu60], []⟩ 1 100 600 false ≤ 1 :=
  ⟨Reachable.init _ _,
    (c4_unique_slot_invariant _ (Reachable.init _ _)).1 1 100 600 false⟩

end Shiatsu
